import Mathlib

/-!
# Pesa-Bridge: verification of the authorization/settlement core

A shallow embedding of the transaction-authorization core of the
Pesa-Bridge repository (`src/models/Transaction.js`, `src/models/User.js`,
`src/models/VirtualCard.js`, `src/services/authorizationService.js`, and the
M-Pesa gateway service), together with theorems settling the specification's
claims about it.

Conventions of the embedding:
* JS numbers are rationals (`Rat`); the one place where the source can
  produce `NaN` (currency conversion hitting an undefined rate) is modelled
  with `Option Rat`, `none` standing for `NaN`.
* Timestamps are rationals (epoch milliseconds) for instant comparisons, and
  a calendar-date triple where the source compares `getDate`/`getMonth`/
  `getFullYear` components.
* Database state is explicit: a `SysState` of transaction, card and user
  records, threaded through each operation; a Mongoose/Sequelize `save` is a
  functional replacement of the record with the matching `id` in the store.
* External collaborators (card-instrument validation, the HTTP leg of the
  M-Pesa gateway, fresh-reference generation, the wall clock) enter as
  explicit parameters carrying exactly the result shapes the source reads.
-/

namespace PesaBridge

/-- Transaction lifecycle statuses: the `status` enum of
`src/models/Transaction.js`. -/
inductive TxnStatus where
  | pending_authorization
  | stk_push_sent
  | awaiting_user_response
  | approved
  | declined
  | failed
  | expired
  | cancelled
deriving DecidableEq, Repr

/-- Terminal statuses per the specification's glossary: `approved`,
`declined`, `expired`, `failed` and `cancelled`. -/
def isTerminalStatus : TxnStatus → Bool
  | .approved => true
  | .declined => true
  | .failed => true
  | .expired => true
  | .cancelled => true
  | _ => false

/-- Card lifecycle statuses: the `status` enum of `src/models/VirtualCard.js`. -/
inductive CardStatus where
  | active
  | suspended
  | expired
  | cancelled
deriving DecidableEq, Repr

/-- The free-form metadata bag (`metadata: Mixed`), as an association list of
string keys and values. -/
abbrev Meta := List (String × String)

/-- JS object spread on the metadata bag: keys of `new` override keys of
`old`. Represented with the earliest binding winning on lookup. -/
def mergeMeta (old new : Meta) : Meta := new ++ old

/-- A calendar date, for the source's component-wise `getFullYear` /
`getMonth` (+1) / `getDate` comparisons. -/
structure CalDate where
  year : Int
  month : Nat
  day : Nat
deriving DecidableEq, Repr

/-- The wall clock as the source reads it: `Date.now()` in epoch
milliseconds, plus the same instant's calendar components. -/
structure Clock where
  ms : Rat
  date : CalDate
deriving DecidableEq, Repr

/-- The `Transaction` document schema of `src/models/Transaction.js`
(fields the core reads or writes). -/
structure Txn where
  id : Nat
  user_id : Nat
  card_id : Nat
  transaction_reference : String
  amount : Rat
  currency : String
  amount_kes : Rat
  merchant_name : String
  status : TxnStatus
  mpesa_checkout_request_id : Option String
  stk_push_sent_at : Option Rat
  user_response_at : Option Rat
  completed_at : Option Rat
  timeout_at : Option Rat
  metadata : Meta
deriving DecidableEq, Repr

/-- `transactionSchema.methods.isExpired`: false when `timeout_at` is unset,
otherwise `new Date() > this.timeout_at` (strict). -/
def Txn.isExpired (t : Txn) (now : Rat) : Bool :=
  match t.timeout_at with
  | none => false
  | some d => now > d

/-- `transactionSchema.methods.setTimeout`: sets `timeout_at` to
`Date.now() + minutes * 60 * 1000` and saves. -/
def Txn.setTimeoutAt (t : Txn) (minutes : Rat) (now : Rat) : Txn :=
  { t with timeout_at := some (now + minutes * 60 * 1000) }

/-- `transactionSchema.methods.updateStatus`: unconditionally sets the
status, merges the supplied metadata into the bag, stamps the timestamp
matching the new status (the `switch` has arms only for `stk_push_sent`,
`awaiting_user_response`, `approved`, `declined` and `failed`), and saves.
Note the source has no terminal-state guard of any kind. -/
def Txn.updateStatus (t : Txn) (status : TxnStatus) (metadata : Meta)
    (now : Rat) : Txn :=
  let t' := { t with status := status,
                     metadata := mergeMeta t.metadata metadata }
  match status with
  | .stk_push_sent => { t' with stk_push_sent_at := some now }
  | .awaiting_user_response => { t' with user_response_at := some now }
  | .approved => { t' with completed_at := some now }
  | .declined => { t' with completed_at := some now }
  | .failed => { t' with completed_at := some now }
  | _ => t'

/-- The selection predicate of
`transactionSchema.statics.findPendingTransactions`: status in
`stk_push_sent`/`awaiting_user_response` and `timeout_at` strictly in the
past (a document missing `timeout_at` never matches a Mongo range query). -/
def pendingPred (t : Txn) (now : Rat) : Bool :=
  (t.status = TxnStatus.stk_push_sent ∨
    t.status = TxnStatus.awaiting_user_response : Prop) &&
  match t.timeout_at with
  | none => false
  | some d => d < now

/-- `Transaction.findPendingTransactions()`: all stored transactions passing
`pendingPred` at the current instant. -/
def findPendingTransactions (txns : List Txn) (now : Rat) : List Txn :=
  txns.filter (fun t => pendingPred t now)

/-- The `User` document schema of `src/models/User.js`
(fields the core reads or writes). -/
structure User where
  id : Nat
  mpesa_phone : String
  is_active : Bool
  daily_transaction_limit : Rat
  single_transaction_limit : Rat
  total_daily_spent : Rat
  reset_daily_spent_at : CalDate
deriving DecidableEq, Repr

/-- The result shape of the limit checks:
`\x7b allowed: bool, reason?: string \x7d`. -/
structure CheckResult where
  allowed : Bool
  reason : Option String
deriving DecidableEq, Repr

/-- `userSchema.methods.resetDailySpent`: zero the daily counter and stamp
the reset date (persisted by its `save`). -/
def User.resetDailySpent (u : User) (today : CalDate) : User :=
  { u with total_daily_spent := 0, reset_daily_spent_at := today }

/-- `userSchema.methods.canMakeTransaction`: lazily reset the daily counter
when any of the day/month/year components differ from the stored reset date,
then deny on `amount > single_transaction_limit`, then on
`total_daily_spent + amount > daily_transaction_limit`, else allow. Returns
the check result together with the (possibly reset) user record, since the
lazy reset saves. -/
def User.canMakeTransaction (u : User) (amount : Rat) (today : CalDate) :
    CheckResult × User :=
  let u' := if today ≠ u.reset_daily_spent_at then u.resetDailySpent today else u
  if amount > u'.single_transaction_limit then
    (⟨false, some "Single transaction limit exceeded"⟩, u')
  else if u'.total_daily_spent + amount > u'.daily_transaction_limit then
    (⟨false, some "Daily transaction limit exceeded"⟩, u')
  else
    (⟨true, none⟩, u')

/-- The `VirtualCard` document schema of `src/models/VirtualCard.js`
(fields the core reads or writes). -/
structure VirtualCard where
  id : Nat
  user_id : Nat
  expiry_month : Nat
  expiry_year : Int
  status : CardStatus
  daily_limit : Rat
  monthly_limit : Rat
  total_spent_today : Rat
  total_spent_month : Rat
  last_used : Option Rat
deriving DecidableEq, Repr

/-- `virtualCardSchema.methods.isExpired`: expired when the expiry year is
before the current year, or equal with an earlier expiry month (calendar
month/year comparison, `getMonth() + 1`). -/
def VirtualCard.isExpired (c : VirtualCard) (currentYear : Int)
    (currentMonth : Nat) : Bool :=
  if c.expiry_year < currentYear then true
  else if c.expiry_year = currentYear ∧ c.expiry_month < currentMonth then true
  else false

/-- `virtualCardSchema.methods.canMakeTransaction`: deny when the card is
not `active`, when it is past expiry, when `total_spent_today + amount`
strictly exceeds the daily limit, or when `total_spent_month + amount`
strictly exceeds the monthly limit; otherwise allow. -/
def VirtualCard.canMakeTransaction (c : VirtualCard) (amount : Rat)
    (currentYear : Int) (currentMonth : Nat) : CheckResult :=
  if c.status ≠ CardStatus.active then
    ⟨false, some "Card is not active"⟩
  else if c.isExpired currentYear currentMonth then
    ⟨false, some "Card has expired"⟩
  else if c.total_spent_today + amount > c.daily_limit then
    ⟨false, some "Daily limit exceeded"⟩
  else if c.total_spent_month + amount > c.monthly_limit then
    ⟨false, some "Monthly limit exceeded"⟩
  else
    ⟨true, none⟩

/-- `virtualCardSchema.methods.updateSpending`: add the amount to both
running counters and stamp `last_used` (persisted by its `save`). -/
def VirtualCard.updateSpending (c : VirtualCard) (amount : Rat) (now : Rat) :
    VirtualCard :=
  { c with total_spent_today := c.total_spent_today + amount,
           total_spent_month := c.total_spent_month + amount,
           last_used := some now }

/-- The decision object produced by the gateway's result-code mapper
(`mpesaService.mapMpesaResultToCardResponse`). -/
structure CardResponse where
  approved : Bool
  authorizationCode : Option String
  declineCode : Option String
  declineReason : Option String
  responseCode : Option String
  responseDescription : Option String
deriving DecidableEq, Repr

/-- JS `a || b` on an optional string: `undefined` and the empty string are
falsy. -/
def jsOrString (a : Option String) (b : String) : String :=
  match a with
  | none => b
  | some s => if s = "" then b else s

/-- `mpesaService.mapMpesaResultToCardResponse`: the `switch` over the
provider result code. `authCode` stands for the value of the random
`generateAuthorizationCode()` call in the code-0 arm. The `default` arm
returns a "96" decline with the provider description (or "System
malfunction" when that is absent/empty). -/
def mapMpesaResultToCardResponse (resultCode : Int)
    (resultDescription : Option String) (authCode : String) : CardResponse :=
  if resultCode = 0 then
    ⟨true, some authCode, none, none, some "00", some "Approved"⟩
  else if resultCode = 1 then
    ⟨false, none, some "51", some "Insufficient funds", none, none⟩
  else if resultCode = 2 then
    ⟨false, none, some "05", some "Declined", none, none⟩
  else if resultCode = 1032 then
    ⟨false, none, some "13", some "Invalid amount", none, none⟩
  else if resultCode = 1037 then
    ⟨false, none, some "12", some "Invalid transaction", none, none⟩
  else if resultCode = 2001 then
    ⟨false, none, some "14", some "Invalid card number", none, none⟩
  else if resultCode = 2002 then
    ⟨false, none, some "15", some "Invalid card", none, none⟩
  else
    ⟨false, none, some "96",
      some (jsOrString resultDescription "System malfunction"), none, none⟩

/-- The fixed reference-rate table of
`authorizationService.convertCurrency`: KES per unit of the given currency;
`none` for a currency absent from the table (JS `rates[c]` being
`undefined`). -/
def rates (c : String) : Option Rat :=
  if c = "USD" then some 150
  else if c = "EUR" then some 165
  else if c = "GBP" then some 190
  else none

/-- JS multiplication where an operand may be `undefined`: any `undefined`
(or already-`NaN`) operand poisons the result to `NaN` (`none`). -/
def jsMul (a : Option Rat) (r : Option Rat) : Option Rat :=
  match a, r with
  | some x, some y => some (x * y)
  | _, _ => none

/-- JS division where an operand may be `undefined`, likewise poisoning to
`NaN`. Every defined divisor drawn from the rate table is nonzero, so
rational division coincides with JS division on the defined cases. -/
def jsDiv (a : Option Rat) (r : Option Rat) : Option Rat :=
  match a, r with
  | some x, some y => some (x / y)
  | _, _ => none

/-- `authorizationService.convertCurrency`: identity on equal currencies;
otherwise divide or multiply by the table rate (through KES for a
cross-currency pair). A missing rate makes the JS arithmetic produce `NaN`
(`none` here): no exception is thrown, so the function's `catch` fallback
(returning the amount unchanged) is not reached on that path. -/
def convertCurrency (amount : Rat) (fromCurrency toCurrency : String) :
    Option Rat :=
  if fromCurrency = toCurrency then some amount
  else if fromCurrency = "KES" then jsDiv (some amount) (rates toCurrency)
  else if toCurrency = "KES" then jsMul (some amount) (rates fromCurrency)
  else jsDiv (jsMul (some amount) (rates fromCurrency)) (rates toCurrency)

/-- The persistent store the services read and write: the transaction, card
and user collections. -/
structure SysState where
  txns : List Txn
  cards : List VirtualCard
  users : List User
deriving DecidableEq, Repr

/-- Persisting a transaction document: replace the stored record with the
same `id`. -/
def saveTxn (txns : List Txn) (t' : Txn) : List Txn :=
  txns.map (fun t => if t.id = t'.id then t' else t)

/-- Persisting a card document. -/
def saveCard (cards : List VirtualCard) (c' : VirtualCard) :
    List VirtualCard :=
  cards.map (fun c => if c.id = c'.id then c' else c)

/-- Persisting a user document. -/
def saveUser (users : List User) (u' : User) : List User :=
  users.map (fun u => if u.id = u'.id then u' else u)

/-- The payload of an STK callback as `handleSTKCallback` destructures it. -/
structure CallbackData where
  checkoutRequestID : String
  resultCode : Int
  resultDescription : Option String
  mpesaReceiptNumber : Option String
deriving DecidableEq, Repr

/-- The object `handleSTKCallback` returns. -/
structure CallbackResult where
  success : Bool
  error : Option String
  transaction_id : Option Nat
  approved : Option Bool
  authorization_code : Option String
  decline_code : Option String
  decline_reason : Option String
deriving DecidableEq, Repr

/-- `authorizationService.handleSTKCallback` (the Reconciliation Handler):
look up the transaction by provider checkout-request id, look up its card
and user, map the provider result, and either apply an approval — set status
`approved` and add `amount_kes` to the card's and the user's spent counters —
or apply a decline. `authCode` stands for the random authorization code
generated inside the mapper; `now` is the wall clock at the timestamp
stamps. The source performs no terminal-state check before any of this. -/
def handleSTKCallback (st : SysState) (cb : CallbackData) (authCode : String)
    (now : Rat) : CallbackResult × SysState :=
  match st.txns.find?
      (fun t => t.mpesa_checkout_request_id = some cb.checkoutRequestID) with
  | none => (⟨false, some "Transaction not found", none, none, none, none,
      none⟩, st)
  | some txn =>
    match st.cards.find? (fun c => c.id = txn.card_id),
          st.users.find? (fun u => u.id = txn.user_id) with
    | some card, some user =>
      let cardResponse :=
        mapMpesaResultToCardResponse cb.resultCode cb.resultDescription
          authCode
      if cardResponse.approved then
        let txn' := txn.updateStatus TxnStatus.approved
          [("mpesa_result_code", toString cb.resultCode),
           ("mpesa_result_desc", cb.resultDescription.getD ""),
           ("mpesa_transaction_id", cb.mpesaReceiptNumber.getD ""),
           ("authorization_code", cardResponse.authorizationCode.getD "")] now
        let card' := card.updateSpending txn.amount_kes now
        let user' :=
          { user with total_daily_spent := user.total_daily_spent +
              txn.amount_kes }
        (⟨true, none, some txn.id, some true, cardResponse.authorizationCode,
            cardResponse.declineCode, cardResponse.declineReason⟩,
         { txns := saveTxn st.txns txn',
           cards := saveCard st.cards card',
           users := saveUser st.users user' })
      else
        let txn' := txn.updateStatus TxnStatus.declined
          [("mpesa_result_code", toString cb.resultCode),
           ("mpesa_result_desc", cb.resultDescription.getD ""),
           ("decline_reason", cardResponse.declineReason.getD ""),
           ("decline_code", cardResponse.declineCode.getD "")] now
        (⟨true, none, some txn.id, some false,
            cardResponse.authorizationCode, cardResponse.declineCode,
            cardResponse.declineReason⟩,
         { st with txns := saveTxn st.txns txn' })
    | _, _ => (⟨false, some "Card or user not found", none, none, none, none,
        none⟩, st)

/-- The result object of the gateway's `querySTKPushStatus` poll, as
`queryTransactionStatus` reads it (`success`, `resultCode`,
`resultDescription`). Supplied as a parameter: it is the value the HTTP
poll would return. -/
structure StkQueryStatus where
  success : Bool
  resultCode : Int
  resultDescription : Option String
deriving DecidableEq, Repr

/-- The object `queryTransactionStatus` returns (the fields the claims
read). -/
structure QueryResult where
  success : Bool
  error : Option String
  status : Option TxnStatus
  transaction_reference : Option String
  message : Option String
deriving DecidableEq, Repr

/-- `authorizationService.queryTransactionStatus` (the status-query
fallback): look the transaction up by its human-readable reference. Only
when its status is `stk_push_sent` or `awaiting_user_response` does the
source do anything beyond echoing the record: if `isExpired`, transition to
`expired` and return that; otherwise poll the gateway (`mpesaStatus` is the
poll's result) and, when the poll succeeded with a result code other than
the still-pending sentinel 1032, feed it through `handleSTKCallback`. The
returned status in that branch is read from the already-fetched document,
which the handler's separately-fetched copy does not update. The third
component of the result records whether the gateway poll was invoked. -/
def queryTransactionStatus (st : SysState) (ref : String)
    (mpesaStatus : StkQueryStatus) (authCode : String) (now : Rat) :
    QueryResult × SysState × Bool :=
  match st.txns.find? (fun t => t.transaction_reference = ref) with
  | none => (⟨false, some "Transaction not found", none, none, none⟩, st,
      false)
  | some txn =>
    if txn.status = TxnStatus.stk_push_sent ∨
        txn.status = TxnStatus.awaiting_user_response then
      if txn.isExpired now then
        let txn' := txn.updateStatus TxnStatus.expired [] now
        (⟨true, none, some TxnStatus.expired, none,
            some "Transaction expired"⟩,
         { st with txns := saveTxn st.txns txn' }, false)
      else
        let st' :=
          if mpesaStatus.success ∧ mpesaStatus.resultCode ≠ 1032 then
            (handleSTKCallback st
              ⟨txn.mpesa_checkout_request_id.getD "",
               mpesaStatus.resultCode, mpesaStatus.resultDescription, none⟩
              authCode now).2
          else st
        (⟨true, none, some txn.status, some txn.transaction_reference,
            none⟩, st', true)
    else
      (⟨true, none, some txn.status, some txn.transaction_reference, none⟩,
        st, false)

/-- The card-present charge request as `authorizeTransaction` destructures
it (instrument material is consumed by the validation collaborator and does
not reappear below it). -/
structure ChargeRequest where
  amount : Rat
  currency : String
  merchant_name : String
deriving DecidableEq, Repr

/-- The result of `cardService.validateCard` as `authorizeTransaction` reads
it: invalid with a reason, or valid carrying the resolved card document and
its owner's user id. -/
inductive ValidationOutcome where
  | invalid (reason : String)
  | valid (card : VirtualCard) (user_id : Nat)
deriving DecidableEq, Repr

/-- The result of `mpesaService.initiateSTKPush` as `authorizeTransaction`
reads it. -/
structure StkResult where
  success : Bool
  checkoutRequestID : Option String
  merchantRequestID : Option String
  error : Option String
deriving DecidableEq, Repr

/-- The authorization outcome object `authorizeTransaction` returns. -/
structure AuthOutcome where
  approved : Bool
  pending : Bool
  decline_code : Option String
  decline_reason : Option String
  transaction_reference : Option String
  checkout_request_id : Option String
  message : Option String
deriving DecidableEq, Repr

/-- A pre-entry decline outcome (shared shape of the early returns of
`authorizeTransaction`). -/
def declineOutcome (code reason ref : String) : AuthOutcome :=
  ⟨false, false, some code, some reason, some ref, none, none⟩

/-- The settlement-currency amount as `authorizeTransaction` computes it:
a no-op for KES, otherwise `convertCurrency` into KES. For a currency with
no table rate the JS value is `NaN`, outside this rational embedding: the
`getD` totalizes that case, and every theorem exercising this definition
constrains the currency to KES or the table's domain. -/
def settlementAmount (req : ChargeRequest) : Rat :=
  if req.currency = "KES" then req.amount
  else (convertCurrency req.amount req.currency "KES").getD req.amount

/-- `authorizationService.authorizeTransaction` (the Authorization
Orchestrator). Parameters standing for collaborators: `validation` is
`cardService.validateCard`'s result; `stkResult` is
`mpesaService.initiateSTKPush`'s result; `fraud_indicators` is
`cardService.checkFraudPatterns`'s indicator list (logged and recorded in
metadata, never gating); `refs k` is the value of the (k+1)-th
`generateTransactionReference()` call of the run; `newId` the id the store
assigns the created document; `clock` the wall clock. `postCreateThrow`
models an exception thrown by the persistence layer at the
`updateStatus('stk_push_sent')` save, the representative unexpected failure
after entry creation: control reaches the `catch` block, which returns a
generic "96" decline with a freshly generated reference, while the store
keeps the entry as created. The conversion step is `settlementAmount` (see
its note on currencies outside the rate table). -/
def authorizeTransaction (st : SysState) (req : ChargeRequest)
    (validation : ValidationOutcome) (stkResult : StkResult)
    (fraud_indicators : List String) (refs : Nat → String) (newId : Nat)
    (postCreateThrow : Bool) (clock : Clock) : AuthOutcome × SysState :=
  match validation with
  | .invalid reason => (declineOutcome "14" reason (refs 0), st)
  | .valid card user_id =>
    match st.users.find? (fun u => u.id = user_id) with
    | none =>
      (declineOutcome "15" "Cardholder account inactive" (refs 0), st)
    | some user =>
      if user.is_active = false then
        (declineOutcome "15" "Cardholder account inactive" (refs 0), st)
      else
        let amountKES : Rat := settlementAmount req
        let userCheck := user.canMakeTransaction amountKES clock.date
        let st := { st with users := saveUser st.users userCheck.2 }
        if userCheck.1.allowed = false then
          (declineOutcome "51" (userCheck.1.reason.getD "") (refs 0), st)
        else
          let cardCheck :=
            card.canMakeTransaction amountKES clock.date.year clock.date.month
          if cardCheck.allowed = false then
            (declineOutcome "51" (cardCheck.reason.getD "") (refs 0), st)
          else
            let txn : Txn :=
              { id := newId, user_id := user_id, card_id := card.id,
                transaction_reference := refs 0,
                amount := req.amount, currency := req.currency,
                amount_kes := amountKES,
                merchant_name := req.merchant_name,
                status := TxnStatus.pending_authorization,
                mpesa_checkout_request_id := none,
                stk_push_sent_at := none, user_response_at := none,
                completed_at := none, timeout_at := none,
                metadata :=
                  [("fraud_indicators",
                    String.intercalate "," fraud_indicators)] }
            let txn := txn.setTimeoutAt (1 / 2) clock.ms
            let st := { st with txns := st.txns ++ [txn] }
            if stkResult.success = false then
              let txn' := txn.updateStatus TxnStatus.failed
                [("error", stkResult.error.getD "")] clock.ms
              (⟨false, false, some "96", some "Payment service unavailable",
                  some txn.transaction_reference, none, none⟩,
               { st with txns := saveTxn st.txns txn' })
            else if postCreateThrow then
              (⟨false, false, some "96", some "System error", some (refs 1),
                  none, none⟩, st)
            else
              let txn' := txn.updateStatus TxnStatus.stk_push_sent
                [("mpesa_checkout_request_id",
                    stkResult.checkoutRequestID.getD ""),
                 ("mpesa_merchant_request_id",
                    stkResult.merchantRequestID.getD "")] clock.ms
              (⟨false, true, none, none, some txn.transaction_reference,
                  stkResult.checkoutRequestID,
                  some "STK push sent to your phone. Please complete the payment."⟩,
               { st with txns := saveTxn st.txns txn' })

/-- Modelled from the spec: the Expiry Sweeper's recurring loop itself (the
scheduler-invoked worker of §4.7) is not among the repository's source files
under `src/`; only its selection query, `findPendingTransactions`, is.
Following §4.7's words, the sweep "selects all entries in `push_sent` or
`awaiting_holder_response` whose expiry deadline has passed and transitions
each to `expired`, independently and idempotently per entry": each stored
transaction matching the selection predicate is transitioned to `expired`
through the single transition operation `Txn.updateStatus`, every other
record left untouched. -/
def sweepExpired (txns : List Txn) (now : Rat) : List Txn :=
  txns.map (fun t =>
    if pendingPred t now then t.updateStatus TxnStatus.expired [] now else t)

/-! ## Settling the claims -/

/-- A concrete transaction already in the terminal status `expired`. -/
def exTxnC2 : Txn :=
  { id := 7, user_id := 1, card_id := 1, transaction_reference := "TXN7",
    amount := 1000, currency := "KES", amount_kes := 1000,
    merchant_name := "Shop", status := TxnStatus.expired,
    mpesa_checkout_request_id := some "CR7",
    stk_push_sent_at := some 10, user_response_at := none,
    completed_at := none, timeout_at := some 30000, metadata := [] }

/-- C2: the claim says a transition attempted on an already-terminal entry
is a no-op reporting "already finalized". The single transition operation
`updateStatus` has no terminal-state guard at all: on a concrete entry in
the terminal state `expired`, requesting `approved` overwrites the status,
so the entry transitions out of a terminal state, contradicting the claim
(and the source's own specification of the state machine). -/
theorem C2_updateStatus_has_no_terminal_guard :
    isTerminalStatus exTxnC2.status = true ∧
    (exTxnC2.updateStatus TxnStatus.approved [] 99999).status =
      TxnStatus.approved ∧
    (exTxnC2.updateStatus TxnStatus.approved [] 99999).status ≠
      TxnStatus.expired := by
  refine ⟨rfl, rfl, ?_⟩
  decide

/-- A virtual card whose spent counters already reflect one application of
the 1000 KES entry below. -/
def exCardC1 : VirtualCard :=
  { id := 1, user_id := 1, expiry_month := 12, expiry_year := 2030,
    status := CardStatus.active, daily_limit := 70000,
    monthly_limit := 1000000, total_spent_today := 1000,
    total_spent_month := 1000, last_used := some 60 }

/-- The cardholder, likewise already debited once. -/
def exUserC1 : User :=
  { id := 1, mpesa_phone := "254712345678", is_active := true,
    daily_transaction_limit := 70000, single_transaction_limit := 70000,
    total_daily_spent := 1000, reset_daily_spent_at := ⟨2026, 10, 12⟩ }

/-- A ledger entry already reconciled to the terminal state `approved`. -/
def exTxnC1 : Txn :=
  { id := 3, user_id := 1, card_id := 1, transaction_reference := "TXN3",
    amount := 1000, currency := "KES", amount_kes := 1000,
    merchant_name := "Shop", status := TxnStatus.approved,
    mpesa_checkout_request_id := some "CR1",
    stk_push_sent_at := some 10, user_response_at := none,
    completed_at := some 60, timeout_at := some 30000,
    metadata := [("authorization_code", "AUTH1")] }

/-- The store after the first, legitimate reconciliation. -/
def exStC1 : SysState := ⟨[exTxnC1], [exCardC1], [exUserC1]⟩

/-- C1: the claim says a second invocation of the reconciliation handler on
an already-terminal entry leaves it unchanged and never re-applies spend
counters. `handleSTKCallback` performs no terminal-state check: replaying
the success callback on the concrete already-`approved` entry doubles the
card's and the cardholder's spent counters (1000 becomes 2000), and
replaying a conflicting failure callback flips the stored status from
`approved` to `declined` — both contradicting the claim. -/
theorem C1_second_callback_double_applies :
    isTerminalStatus exTxnC1.status = true ∧
    ((handleSTKCallback exStC1 ⟨"CR1", 0, some "Success", some "RCPT2"⟩
        "AUTH2" 99).2.cards.map VirtualCard.total_spent_today = [2000] ∧
     (handleSTKCallback exStC1 ⟨"CR1", 0, some "Success", some "RCPT2"⟩
        "AUTH2" 99).2.users.map User.total_daily_spent = [2000]) ∧
    (handleSTKCallback exStC1 ⟨"CR1", 1, some "Cancelled", none⟩
        "AUTH3" 99).2.txns.map Txn.status = [TxnStatus.declined] := by
  refine ⟨rfl, ⟨?_, ?_⟩, ?_⟩ <;>
    · simp only [handleSTKCallback, exStC1, exTxnC1, exCardC1, exUserC1,
        mapMpesaResultToCardResponse, VirtualCard.updateSpending, saveCard,
        saveUser, saveTxn, Txn.updateStatus, mergeMeta, List.find?,
        List.map]
      norm_num

/-- C7: the provider result-code mapper is total (it is a Lean function, so
it returns a decision object on every input without any failure path), and
every result code outside the seven mapped ones (0, 1, 2, 1032, 1037, 2001,
2002) resolves to a non-approved decision with the generic
system-malfunction decline code "96". -/
theorem C7_unmapped_code_is_system_malfunction (resultCode : Int)
    (resultDescription : Option String) (authCode : String)
    (h : resultCode ∉ ([0, 1, 2, 1032, 1037, 2001, 2002] : List Int)) :
    (mapMpesaResultToCardResponse resultCode resultDescription
        authCode).approved = false ∧
    (mapMpesaResultToCardResponse resultCode resultDescription
        authCode).declineCode = some "96" := by
  simp only [List.mem_cons, List.not_mem_nil, or_false, not_or] at h
  obtain ⟨h0, h1, h2, h3, h4, h5, h6⟩ := h
  simp [mapMpesaResultToCardResponse, h0, h1, h2, h3, h4, h5, h6]

/-- Witness for C7 at the concrete unmapped provider code 1001. -/
theorem C7_unmapped_code_witness :
    ((1001 : Int) ∉ ([0, 1, 2, 1032, 1037, 2001, 2002] : List Int)) ∧
    ((mapMpesaResultToCardResponse 1001 none "AUTHX").approved = false ∧
     (mapMpesaResultToCardResponse 1001 none "AUTHX").declineCode =
       some "96") :=
  ⟨by decide, C7_unmapped_code_is_system_malfunction 1001 none "AUTHX"
    (by decide)⟩

/-- C9: the claim says a missing reference rate degrades to returning the
amount unchanged. In the source, `rates[from]` for a currency outside the
table is `undefined`, the multiplication/division with it yields `NaN`
(modelled as `none`) without throwing, and the `catch` fallback that would
return the amount unchanged is never reached: converting 100 JPY to KES
yields `NaN`, not 100. The same-currency no-op and the fixed-table cases
behave as claimed. -/
theorem C9_missing_rate_yields_NaN_not_amount :
    convertCurrency 100 "JPY" "KES" = none ∧
    convertCurrency 100 "JPY" "KES" ≠ some 100 ∧
    convertCurrency 100 "KES" "KES" = some 100 ∧
    convertCurrency 100 "USD" "KES" = some 15000 ∧
    convertCurrency 300 "KES" "USD" = some 2 ∧
    convertCurrency 100 "EUR" "KES" = some 16500 := by
  refine ⟨rfl, by decide, rfl, ?_, ?_, ?_⟩ <;>
    · simp [convertCurrency, jsMul, jsDiv, rates]
      norm_num

/-- C3: the combined limit evaluation (the cardholder's check composed with
the card's check, exactly as the orchestrator runs them) allows if and only
if the card is `active` and not past its calendar expiry month/year, the
amount does not exceed the cardholder's single-transaction limit, and for
each running counter (the cardholder's lazily-reset daily counter, the
card's daily counter, the card's monthly counter) `spent + amount` does not
strictly exceed the respective limit. Equivalently it rejects exactly when
one of these strict `spent + amount > limit` (or `amount > limit`)
comparisons fires or an instrument-state check fails; the cardholder-active
gate sits in the orchestrator and is covered by the C8 theorem. -/
theorem C3_limit_evaluation_allows_iff (u : User) (c : VirtualCard)
    (amount : Rat) (d : CalDate) :
    ((u.canMakeTransaction amount d).1.allowed = true ∧
      (c.canMakeTransaction amount d.year d.month).allowed = true) ↔
    (c.status = CardStatus.active ∧
      c.isExpired d.year d.month = false ∧
      amount ≤ u.single_transaction_limit ∧
      (if u.reset_daily_spent_at = d then u.total_daily_spent else 0) +
          amount ≤ u.daily_transaction_limit ∧
      c.total_spent_today + amount ≤ c.daily_limit ∧
      c.total_spent_month + amount ≤ c.monthly_limit) := by
  unfold User.canMakeTransaction VirtualCard.canMakeTransaction
    User.resetDailySpent
  by_cases hd : d = u.reset_daily_spent_at
  · subst hd
    simp only [ne_eq, not_true_eq_false, if_false, if_pos rfl, ite_false,
      ite_true, not_false_eq_true]
    split_ifs <;> simp_all
  · have hd' : ¬(u.reset_daily_spent_at = d) := fun h => hd h.symm
    simp only [ne_eq, hd, hd', not_false_eq_true, if_true, if_false,
      ite_true, ite_false]
    split_ifs <;> simp_all

/-- C4: the expiry sweep's selection query picks exactly the stored entries
whose status is `stk_push_sent` or `awaiting_user_response` and whose
expiry deadline is set and strictly past; the sweep rewrites each record
independently (position `i` of the result depends only on position `i` of
the store), transitioning every selected entry to `expired` through the
single transition operation and leaving every other entry untouched; and
the sweep is idempotent: running it twice at the same instant equals
running it once. -/
theorem C4_expiry_sweep_selects_and_expires (txns : List Txn) (now : Rat) :
    (∀ t, t ∈ findPendingTransactions txns now ↔
      (t ∈ txns ∧
        (t.status = TxnStatus.stk_push_sent ∨
          t.status = TxnStatus.awaiting_user_response) ∧
        ∃ d, t.timeout_at = some d ∧ d < now)) ∧
    (∀ i : Nat, (sweepExpired txns now)[i]? =
      (txns[i]?).map (fun t =>
        if pendingPred t now then t.updateStatus TxnStatus.expired [] now
        else t)) ∧
    (∀ t, pendingPred t now = true →
      (t.updateStatus TxnStatus.expired [] now).status = TxnStatus.expired) ∧
    sweepExpired (sweepExpired txns now) now = sweepExpired txns now := by
  refine ⟨?_, ?_, fun t _ => rfl, ?_⟩
  · intro t
    rw [findPendingTransactions, List.mem_filter]
    unfold pendingPred
    cases h : t.timeout_at with
    | none => simp [h]
    | some dl => simp [h]
  · intro i
    simp [sweepExpired, List.getElem?_map]
  · unfold sweepExpired
    induction txns with
    | nil => rfl
    | cons t ts ih =>
      simp only [List.map_cons, List.cons.injEq]
      refine ⟨?_, ih⟩
      by_cases hp : pendingPred t now
      · have h2 : pendingPred (t.updateStatus TxnStatus.expired [] now)
            now = false := by
          simp [pendingPred, Txn.updateStatus]
        simp [hp, h2]
      · simp [hp]

/-- A non-terminal entry in the initial status `pending_authorization`
whose expiry deadline (epoch instant 0) has long passed. -/
def exTxnC5 : Txn :=
  { id := 9, user_id := 1, card_id := 1, transaction_reference := "TXN9",
    amount := 500, currency := "KES", amount_kes := 500,
    merchant_name := "Shop", status := TxnStatus.pending_authorization,
    mpesa_checkout_request_id := none, stk_push_sent_at := none,
    user_response_at := none, completed_at := none, timeout_at := some 0,
    metadata := [] }

/-- A store holding only that entry. -/
def exStC5 : SysState := ⟨[exTxnC5], [], []⟩

/-- C5, counterexample: the claim says every non-terminal entry whose
expiry deadline has passed is transitioned to `expired` by the status-query
path. The concrete entry above is non-terminal (`pending_authorization`)
and past its deadline at instant 1000, yet the status query returns the
recorded `pending_authorization` state, leaves the store untouched, and
never contacts the gateway: the source only applies the expiry check to
entries in `stk_push_sent` or `awaiting_user_response`. -/
theorem C5_pending_authorization_not_expired_by_query :
    isTerminalStatus exTxnC5.status = false ∧
    exTxnC5.isExpired 1000 = true ∧
    TxnStatus.pending_authorization ≠ TxnStatus.expired ∧
    queryTransactionStatus exStC5 "TXN9" ⟨true, 0, some "Success"⟩ "A" 1000 =
      (⟨true, none, some TxnStatus.pending_authorization, some "TXN9",
        none⟩, exStC5, false) := by
  refine ⟨rfl, ?_, by decide, ?_⟩
  · simp [exTxnC5, Txn.isExpired]
  · simp [queryTransactionStatus, exStC5, exTxnC5]

/-- C5, as amended: for an entry found by reference, (i) a terminal entry is
echoed unchanged with no store mutation and no gateway call; (ii) an entry
in `stk_push_sent` or `awaiting_user_response` whose deadline has passed is
transitioned to `expired` and that state returned, without any gateway
call; (iii) such an in-flight entry whose deadline has not passed is echoed
while the gateway is polled, and a successful poll result other than the
still-pending sentinel 1032 is fed through the reconciliation handler
exactly as a callback would be; (iv) — the correction — an entry in the
remaining non-terminal status `pending_authorization` is echoed unchanged
with no expiry transition and no gateway call, even when its deadline has
passed. -/
theorem C5_query_path_amended (st : SysState) (ref : String)
    (q : StkQueryStatus) (ac : String) (now : Rat) (t : Txn)
    (hf : st.txns.find? (fun x => x.transaction_reference = ref) = some t) :
    (isTerminalStatus t.status = true →
      queryTransactionStatus st ref q ac now =
        (⟨true, none, some t.status, some t.transaction_reference, none⟩,
          st, false)) ∧
    ((t.status = TxnStatus.stk_push_sent ∨
        t.status = TxnStatus.awaiting_user_response) →
      t.isExpired now = true →
      queryTransactionStatus st ref q ac now =
        (⟨true, none, some TxnStatus.expired, none,
            some "Transaction expired"⟩,
          { st with txns :=
              saveTxn st.txns (t.updateStatus TxnStatus.expired [] now) },
          false)) ∧
    ((t.status = TxnStatus.stk_push_sent ∨
        t.status = TxnStatus.awaiting_user_response) →
      t.isExpired now = false →
      queryTransactionStatus st ref q ac now =
        (⟨true, none, some t.status, some t.transaction_reference, none⟩,
          (if q.success ∧ q.resultCode ≠ 1032 then
            (handleSTKCallback st
              ⟨t.mpesa_checkout_request_id.getD "", q.resultCode,
                q.resultDescription, none⟩ ac now).2
          else st), true)) ∧
    (t.status = TxnStatus.pending_authorization →
      queryTransactionStatus st ref q ac now =
        (⟨true, none, some t.status, some t.transaction_reference, none⟩,
          st, false)) := by
  refine ⟨?_, ?_, ?_, ?_⟩
  · intro hterm
    have hni : ¬(t.status = TxnStatus.stk_push_sent ∨
        t.status = TxnStatus.awaiting_user_response) := by
      rintro (h | h) <;> rw [h] at hterm <;>
        simp [isTerminalStatus] at hterm
    unfold queryTransactionStatus
    rw [hf]
    simp [hni]
  · intro hin hexp
    unfold queryTransactionStatus
    rw [hf]
    simp [hin, hexp]
  · intro hin hexp
    unfold queryTransactionStatus
    rw [hf]
    simp [hin, hexp]
  · intro hp
    have hni : ¬(t.status = TxnStatus.stk_push_sent ∨
        t.status = TxnStatus.awaiting_user_response) := by
      rw [hp]; rintro (h | h) <;> exact TxnStatus.noConfusion h
    unfold queryTransactionStatus
    rw [hf]
    simp [hni]

/-- Witness for C5's amended theorem at the concrete
`pending_authorization` store above, exercising branch (iv). -/
theorem C5_query_path_amended_witness :
    (exStC5.txns.find?
        (fun x => x.transaction_reference = "TXN9") = some exTxnC5) ∧
    queryTransactionStatus exStC5 "TXN9" ⟨true, 0, some "Success"⟩ "A" 1000 =
      (⟨true, none, some exTxnC5.status, some exTxnC5.transaction_reference,
        none⟩, exStC5, false) := by
  have hf : exStC5.txns.find?
      (fun x => x.transaction_reference = "TXN9") = some exTxnC5 := by
    simp [exStC5, exTxnC5]
  exact ⟨hf, (C5_query_path_amended exStC5 "TXN9" ⟨true, 0, some "Success"⟩
    "A" 1000 exTxnC5 hf).2.2.2 rfl⟩

/-- A non-terminal entry whose expiry deadline field was never set. -/
def exTxnC10 : Txn :=
  { id := 11, user_id := 1, card_id := 1, transaction_reference := "TXN11",
    amount := 250, currency := "KES", amount_kes := 250,
    merchant_name := "Shop", status := TxnStatus.pending_authorization,
    mpesa_checkout_request_id := none, stk_push_sent_at := none,
    user_response_at := none, completed_at := none, timeout_at := none,
    metadata := [] }

/-- A store holding only that entry. -/
def exStC10 : SysState := ⟨[exTxnC10], [], []⟩

/-- C10, counterexample: the claim says an entry with an unset deadline
"will be queried against the gateway indefinitely while non-terminal". The
concrete entry above is non-terminal (`pending_authorization`) with
`timeout_at` unset, yet the status query returns without invoking the
gateway at all (third component `false`): only `stk_push_sent` and
`awaiting_user_response` entries are ever polled. -/
theorem C10_pending_authorization_never_polled :
    exTxnC10.timeout_at = none ∧
    isTerminalStatus exTxnC10.status = false ∧
    queryTransactionStatus exStC10 "TXN11" ⟨true, 0, some "ok"⟩ "A" 123 =
      (⟨true, none, some TxnStatus.pending_authorization, some "TXN11",
        none⟩, exStC10, false) := by
  refine ⟨rfl, rfl, ?_⟩
  simp [queryTransactionStatus, exStC10, exTxnC10]

/-- C10, as amended: (i) `isExpired` on an entry with an unset `timeout_at`
is false at every instant; (ii) for such an entry in `stk_push_sent` or
`awaiting_user_response`, every status query polls the gateway, echoes the
recorded (never `expired`) status, and applies a successful non-1032 poll
result through the reconciliation handler; (iii) — the correction — for
such an entry in the remaining non-terminal status `pending_authorization`
the query path answers from the record without contacting the gateway, so
"queried indefinitely" holds only for the two in-flight statuses, not for
every non-terminal status. -/
theorem C10_unset_deadline_never_expires :
    (∀ (t : Txn) (now : Rat), t.timeout_at = none →
      t.isExpired now = false) ∧
    (∀ (st : SysState) (ref : String) (q : StkQueryStatus) (ac : String)
        (now : Rat) (t : Txn),
      st.txns.find? (fun x => x.transaction_reference = ref) = some t →
      t.timeout_at = none →
      (t.status = TxnStatus.stk_push_sent ∨
        t.status = TxnStatus.awaiting_user_response) →
      ((queryTransactionStatus st ref q ac now).2.2 = true ∧
        (queryTransactionStatus st ref q ac now).1.status = some t.status ∧
        (queryTransactionStatus st ref q ac now).1.status ≠
          some TxnStatus.expired ∧
        (queryTransactionStatus st ref q ac now).2.1 =
          (if q.success ∧ q.resultCode ≠ 1032 then
            (handleSTKCallback st
              ⟨t.mpesa_checkout_request_id.getD "", q.resultCode,
                q.resultDescription, none⟩ ac now).2
          else st))) ∧
    (∀ (st : SysState) (ref : String) (q : StkQueryStatus) (ac : String)
        (now : Rat) (t : Txn),
      st.txns.find? (fun x => x.transaction_reference = ref) = some t →
      t.status = TxnStatus.pending_authorization →
      queryTransactionStatus st ref q ac now =
        (⟨true, none, some t.status, some t.transaction_reference, none⟩,
          st, false)) := by
  refine ⟨?_, ?_, ?_⟩
  · intro t now h0
    simp [Txn.isExpired, h0]
  · intro st ref q ac now t hf h0 hin
    have hexp : t.isExpired now = false := by simp [Txn.isExpired, h0]
    have hq : queryTransactionStatus st ref q ac now =
        (⟨true, none, some t.status, some t.transaction_reference, none⟩,
          (if q.success ∧ q.resultCode ≠ 1032 then
            (handleSTKCallback st
              ⟨t.mpesa_checkout_request_id.getD "", q.resultCode,
                q.resultDescription, none⟩ ac now).2
          else st), true) := by
      unfold queryTransactionStatus
      rw [hf]
      simp [hin, hexp]
    rw [hq]
    refine ⟨rfl, rfl, ?_, rfl⟩
    show some t.status ≠ some TxnStatus.expired
    rcases hin with h | h <;> rw [h] <;> decide
  · intro st ref q ac now t hf hp
    have hni : ¬(t.status = TxnStatus.stk_push_sent ∨
        t.status = TxnStatus.awaiting_user_response) := by
      rw [hp]; rintro (h | h) <;> exact TxnStatus.noConfusion h
    unfold queryTransactionStatus
    rw [hf]
    simp [hni]

/-- Witness for C10's amended theorem at a concrete in-flight entry with an
unset deadline. -/
theorem C10_unset_deadline_witness :
    ((⟨12, 1, 1, "TXN12", 250, "KES", 250, "Shop",
        TxnStatus.stk_push_sent, some "CR12", some 5, none, none, none,
        []⟩ : Txn).timeout_at = none) ∧
    (queryTransactionStatus
        ⟨[⟨12, 1, 1, "TXN12", 250, "KES", 250, "Shop",
          TxnStatus.stk_push_sent, some "CR12", some 5, none, none, none,
          []⟩], [], []⟩ "TXN12" ⟨false, 1032, none⟩ "A" 777).2.2 = true := by
  refine ⟨rfl, ?_⟩
  exact (C10_unset_deadline_never_expires.2.1
    ⟨[⟨12, 1, 1, "TXN12", 250, "KES", 250, "Shop",
      TxnStatus.stk_push_sent, some "CR12", some 5, none, none, none,
      []⟩], [], []⟩ "TXN12" ⟨false, 1032, none⟩ "A" 777
    ⟨12, 1, 1, "TXN12", 250, "KES", 250, "Shop", TxnStatus.stk_push_sent,
      some "CR12", some 5, none, none, none, []⟩
    (by simp) rfl (Or.inl rfl)).1

/-- A fresh, active card with nothing spent. -/
def exCardC6 : VirtualCard :=
  ⟨1, 1, 12, 2030, CardStatus.active, 70000, 1000000, 0, 0, none⟩

/-- An active cardholder with nothing spent today. -/
def exUserC6 : User :=
  ⟨1, "254712345678", true, 70000, 70000, 0, ⟨2026, 10, 12⟩⟩

/-- A store with that cardholder and card and no transactions yet. -/
def exStC6 : SysState := ⟨[], [exCardC6], [exUserC6]⟩

/-- A 1000 KES charge request. -/
def exReqC6 : ChargeRequest := ⟨1000, "KES", "Shop"⟩

/-- The run's stream of generated references: the k-th
`generateTransactionReference()` call yields `REF<k>`. -/
def exRefsC6 : Nat → String := fun n => "REF" ++ toString n

/-- The run's wall clock. -/
def exClockC6 : Clock := ⟨1000000, ⟨2026, 10, 12⟩⟩

/-- C6, counterexample: the claim says any unexpected failure after entry
creation returns a decline outcome carrying the entry's already-generated
reference. In the concrete run below all checks pass, the entry is created
with reference `REF0`, the gateway accepts, and then the persistence layer
throws: the `catch` block returns a "96" decline whose reference is a
freshly generated `REF1`, not the persisted entry's `REF0`. -/
theorem C6_catch_block_returns_fresh_reference :
    (authorizeTransaction exStC6 exReqC6
        (ValidationOutcome.valid exCardC6 1)
        ⟨true, some "CRX", some "MRX", none⟩ [] exRefsC6 42 true
        exClockC6).1 =
      ⟨false, false, some "96", some "System error", some "REF1", none,
        none⟩ ∧
    (authorizeTransaction exStC6 exReqC6
        (ValidationOutcome.valid exCardC6 1)
        ⟨true, some "CRX", some "MRX", none⟩ [] exRefsC6 42 true
        exClockC6).2.txns.map Txn.transaction_reference = ["REF0"] ∧
    ("REF1" : String) ≠ "REF0" := by
  refine ⟨?_, ?_, by decide⟩ <;>
    · simp [authorizeTransaction, settlementAmount, exStC6, exReqC6,
        exCardC6, exUserC6, exRefsC6, exClockC6, User.canMakeTransaction,
        User.resetDailySpent, VirtualCard.canMakeTransaction,
        VirtualCard.isExpired, Txn.setTimeoutAt, saveUser, saveTxn]
      decide

/-- Replacing a stored transaction leaves the replacement in the store:
persisting `t'` over a stored `t` with the same id yields a store containing
`t'`. -/
theorem mem_saveTxn_self (txns : List Txn) (t t' : Txn) (h : t ∈ txns)
    (hid : t.id = t'.id) : t' ∈ saveTxn txns t' := by
  unfold saveTxn
  have h2 : (fun x : Txn => if x.id = t'.id then t' else x) t = t' := by
    simp only [hid, if_true, ite_true, if_pos]
  exact List.mem_map.mpr ⟨t, h, h2⟩

/-- C6, as amended: in a run that passes validation, the active-cardholder
check and both limit checks (so the ledger entry is created with reference
`refs 0` and deadline 30 seconds out), (i) if the gateway rejects the push
initiation, the entry is transitioned to `failed` and a "96" decline
carrying the entry's reference `refs 0` is returned; (ii) — the
correction — an unexpected failure after entry creation still yields a
"96" decline outcome rather than an unhandled fault, but it carries a
freshly generated reference `refs 1` instead of the entry's `refs 0`,
while the entry stays persisted in `pending_authorization` with its expiry
deadline set. -/
theorem C6_gateway_reject_and_catch_amended (st : SysState)
    (req : ChargeRequest) (card : VirtualCard) (uid : Nat) (user : User)
    (stkResult : StkResult) (fi : List String) (refs : Nat → String)
    (newId : Nat) (clock : Clock)
    (hu : st.users.find? (fun u => u.id = uid) = some user)
    (ha : user.is_active = true)
    (hcur : req.currency = "KES" ∨ (rates req.currency).isSome = true)
    (hul : (user.canMakeTransaction (settlementAmount req)
      clock.date).1.allowed = true)
    (hcl : (card.canMakeTransaction (settlementAmount req) clock.date.year
      clock.date.month).allowed = true) :
    (stkResult.success = false → ∀ throwFlag,
      (authorizeTransaction st req (ValidationOutcome.valid card uid)
          stkResult fi refs newId throwFlag clock).1 =
        ⟨false, false, some "96", some "Payment service unavailable",
          some (refs 0), none, none⟩ ∧
      ∃ e ∈ (authorizeTransaction st req (ValidationOutcome.valid card uid)
          stkResult fi refs newId throwFlag clock).2.txns,
        e.transaction_reference = refs 0 ∧
        e.status = TxnStatus.failed ∧
        e.timeout_at = some (clock.ms + 30000)) ∧
    (stkResult.success = true →
      (authorizeTransaction st req (ValidationOutcome.valid card uid)
          stkResult fi refs newId true clock).1 =
        ⟨false, false, some "96", some "System error", some (refs 1), none,
          none⟩ ∧
      ∃ e ∈ (authorizeTransaction st req (ValidationOutcome.valid card uid)
          stkResult fi refs newId true clock).2.txns,
        e.transaction_reference = refs 0 ∧
        e.status = TxnStatus.pending_authorization ∧
        e.timeout_at = some (clock.ms + 30000)) := by
  have h30 : clock.ms + 1 / 2 * 60 * 1000 = clock.ms + 30000 := by
    norm_num
  constructor
  · intro hs throwFlag
    simp only [authorizeTransaction, hu, ha, hul, hcl, hs,
      Bool.true_eq_false, Bool.false_eq_true, if_false, ite_true,
      ite_false, reduceIte]
    refine ⟨rfl, ?_⟩
    exact ⟨_, mem_saveTxn_self _ _ _ (List.mem_append_right _
        (List.mem_singleton.mpr rfl)) rfl, rfl, rfl, congrArg some h30⟩
  · intro hs
    simp only [authorizeTransaction, hu, ha, hul, hcl, hs,
      Bool.true_eq_false, Bool.false_eq_true, if_false, ite_true,
      ite_false, reduceIte]
    refine ⟨trivial, ?_⟩
    exact ⟨_, List.mem_append_right _ (List.mem_singleton.mpr rfl), rfl,
      rfl, congrArg some h30⟩

/-- Witness for C6's amended theorem: the concrete run above with the
gateway rejecting the push returns the "96" service-unavailable decline
carrying the created entry's reference `REF0`. -/
theorem C6_gateway_reject_witness :
    (authorizeTransaction exStC6 exReqC6
        (ValidationOutcome.valid exCardC6 1)
        ⟨false, none, none, some "down"⟩ [] exRefsC6 7 false
        exClockC6).1 =
      ⟨false, false, some "96", some "Payment service unavailable",
        some (exRefsC6 0), none, none⟩ :=
  ((C6_gateway_reject_and_catch_amended exStC6 exReqC6 exCardC6 1 exUserC6
      ⟨false, none, none, some "down"⟩ [] exRefsC6 7 exClockC6
      (by simp [exStC6, exUserC6])
      rfl
      (Or.inl rfl)
      (by simp [exUserC6, exReqC6, exClockC6, settlementAmount,
        User.canMakeTransaction, User.resetDailySpent]
          norm_num)
      (by simp [exCardC6, exReqC6, exClockC6, settlementAmount,
        VirtualCard.canMakeTransaction, VirtualCard.isExpired]
          norm_num)).1 rfl false).1

/-- C8: a charge request that fails card-instrument validation, the
cardholder-active check, or either limit check is declined with no ledger
side effect: the transaction store is exactly what it was, the outcome is a
non-approved, non-pending decline carrying a freshly generated reference,
and — provided the generated reference is fresh, as the source's
collision-resistant generator guarantees — that reference matches no stored
entry, so no other caller can reconcile or query against it. -/
theorem C8_pre_entry_decline_creates_no_entry (st : SysState)
    (req : ChargeRequest) (validation : ValidationOutcome)
    (stkResult : StkResult) (fi : List String) (refs : Nat → String)
    (newId : Nat) (throwFlag : Bool) (clock : Clock)
    (hfresh : ∀ t ∈ st.txns, t.transaction_reference ≠ refs 0)
    (hfail : (∃ r, validation = ValidationOutcome.invalid r) ∨
      (∃ card uid, validation = ValidationOutcome.valid card uid ∧
        (st.users.find? (fun u => u.id = uid) = none ∨
          ∃ user, st.users.find? (fun u => u.id = uid) = some user ∧
            (user.is_active = false ∨
              (user.is_active = true ∧
                (req.currency = "KES" ∨ (rates req.currency).isSome = true) ∧
                ((user.canMakeTransaction (settlementAmount req)
                    clock.date).1.allowed = false ∨
                  ((user.canMakeTransaction (settlementAmount req)
                      clock.date).1.allowed = true ∧
                    (card.canMakeTransaction (settlementAmount req)
                        clock.date.year clock.date.month).allowed =
                      false))))))) :
    (authorizeTransaction st req validation stkResult fi refs newId
        throwFlag clock).2.txns = st.txns ∧
    (authorizeTransaction st req validation stkResult fi refs newId
        throwFlag clock).1.approved = false ∧
    (authorizeTransaction st req validation stkResult fi refs newId
        throwFlag clock).1.pending = false ∧
    (authorizeTransaction st req validation stkResult fi refs newId
        throwFlag clock).1.transaction_reference = some (refs 0) ∧
    (∀ t ∈ (authorizeTransaction st req validation stkResult fi refs newId
        throwFlag clock).2.txns,
      some t.transaction_reference ≠
        (authorizeTransaction st req validation stkResult fi refs newId
          throwFlag clock).1.transaction_reference) := by
  have hmain :
      (authorizeTransaction st req validation stkResult fi refs newId
        throwFlag clock).2.txns = st.txns ∧
      (authorizeTransaction st req validation stkResult fi refs newId
        throwFlag clock).1.approved = false ∧
      (authorizeTransaction st req validation stkResult fi refs newId
        throwFlag clock).1.pending = false ∧
      (authorizeTransaction st req validation stkResult fi refs newId
        throwFlag clock).1.transaction_reference = some (refs 0) := by
    rcases hfail with ⟨r, hv⟩ | ⟨card, uid, hv, hrest⟩
    · subst hv
      simp [authorizeTransaction, declineOutcome]
    · subst hv
      rcases hrest with hnone | ⟨user, hsome, hrest⟩
      · simp [authorizeTransaction, hnone, declineOutcome]
      · rcases hrest with hinact | ⟨hact, _, hlim⟩
        · simp [authorizeTransaction, hsome, hinact, declineOutcome]
        · rcases hlim with hul | ⟨hul, hcl⟩
          · simp [authorizeTransaction, hsome, hact, hul, declineOutcome]
          · simp [authorizeTransaction, hsome, hact, hul, hcl,
              declineOutcome]
  refine ⟨hmain.1, hmain.2.1, hmain.2.2.1, hmain.2.2.2, ?_⟩
  intro t ht
  rw [hmain.2.2.2]
  rw [hmain.1] at ht
  intro hc
  exact hfresh t ht (Option.some.injEq _ _ ▸ hc)

/-- Witness for C8 at a concrete instrument-validation failure against an
empty store. -/
theorem C8_pre_entry_decline_witness :
    (∀ t ∈ (⟨[], [], []⟩ : SysState).txns,
      t.transaction_reference ≠ "R0") ∧
    (authorizeTransaction ⟨[], [], []⟩ ⟨1000, "KES", "Shop"⟩
        (ValidationOutcome.invalid "Invalid card number length")
        ⟨true, none, none, none⟩ [] (fun n => "R" ++ toString n) 1 false
        ⟨0, ⟨2026, 10, 12⟩⟩).2.txns = (⟨[], [], []⟩ : SysState).txns := by
  have hfresh : ∀ t ∈ (⟨[], [], []⟩ : SysState).txns,
      t.transaction_reference ≠ (fun n : Nat => "R" ++ toString n) 0 := by
    intro t ht
    exact absurd ht (List.not_mem_nil t)
  refine ⟨fun t ht => absurd ht (List.not_mem_nil t), ?_⟩
  exact (C8_pre_entry_decline_creates_no_entry ⟨[], [], []⟩
    ⟨1000, "KES", "Shop"⟩
    (ValidationOutcome.invalid "Invalid card number length")
    ⟨true, none, none, none⟩ [] (fun n => "R" ++ toString n) 1 false
    ⟨0, ⟨2026, 10, 12⟩⟩ hfresh
    (Or.inl ⟨"Invalid card number length", rfl⟩)).1

end PesaBridge
